import Mathlib

/-!
Shallow embedding of the Annunciator firmware
(`src/Software/PhotonSoftware/Annunciator_code/src/Annunciator_code.ino`).

Strings are modelled as `List Char`; Wiring/Particle `String` operations
(`toInt` via `atol`, `indexOf`, `remove`) are translated below.  Machine
timestamps (`millis()`) are modelled as an unwrapped monotonic `Nat`
counter; `unsigned int` conversions that matter to control flow are made
explicit with `toUInt32` (reduction modulo `2 ^ 32`).
-/

/-- Reduction of an integer to its `unsigned int` (32-bit) value, as performed
by C/C++ conversions to `unsigned int`. -/
def toUInt32 (i : Int) : Nat := (i % (2 ^ 32 : Int)).toNat

/-- C `isspace` for the default locale, as used by `atol`. -/
def isSpaceC (c : Char) : Bool :=
  c = ' ' || c = '\t' || c = '\n' || c = '\x0b' || c = '\x0c' || c = '\r'

/-- Numeric value of a decimal digit character. -/
def digitVal (c : Char) : Nat := c.toNat - '0'.toNat

/-- Decimal value of a digit string (most significant first). -/
def digitsToNat (l : List Char) : Nat :=
  l.foldl (fun acc c => acc * 10 + digitVal c) 0

/-- Wiring `String::toInt`, which calls `atol`: skip leading whitespace, an
optional sign, then consume decimal digits; 0 when no digits follow.
(Values are modelled mathematically; `long` overflow on inputs of more than
ten digits is outside the model.) -/
def toInt (s : List Char) : Int :=
  let s1 := s.dropWhile isSpaceC
  match s1 with
  | '-' :: rest => - (digitsToNat (rest.takeWhile Char.isDigit) : Int)
  | '+' :: rest => (digitsToNat (rest.takeWhile Char.isDigit) : Int)
  | _ => (digitsToNat (s1.takeWhile Char.isDigit) : Int)

/-- `pat` is a prefix of `s` (character-by-character). -/
def hasPrefix : List Char → List Char → Bool
  | [], _ => true
  | _ :: _, [] => false
  | p :: ps, c :: cs => p == c && hasPrefix ps cs

/-- Helper for `indexOf`: first position `≥ i` at which `pat` occurs. -/
def indexOfAux (pat : List Char) : List Char → Nat → Int
  | [], i => if hasPrefix pat [] then (i : Int) else -1
  | c :: rest, i =>
      if hasPrefix pat (c :: rest) then (i : Int)
      else indexOfAux pat rest (i + 1)

/-- Wiring `String::indexOf`: position of the first occurrence of `pat` in
`s`, or `-1` when absent. -/
def indexOf (s pat : List Char) : Int := indexOfAux pat s 0

/-- Modelled from the spec: the build-time clip table header `ClipsList.h`
included by the firmware is not among the sources.  The spec describes it as
an ordered, read-only mapping from external device identifier (offset by a
configured base `BEGIN_DEV_NUM`) to clip index, together with a designated
"error" clip constant and a "nothing previously announced" clip constant.
`MAX_NUM_CLIPS` is the number of entries of `clipList`. -/
structure ClipsConfig where
  clipList : List Int
  BEGIN_DEV_NUM : Int
  ERROR_CLIP_NUM : Int
  NO_PREVIOUS_ANNOUNCEMENT : Int
deriving DecidableEq

/-- Number of entries in the clip lookup table (`MAX_NUM_CLIPS`). -/
def ClipsConfig.MAX_NUM_CLIPS (cfg : ClipsConfig) : Int :=
  (cfg.clipList.length : Int)

/-- `const unsigned long BUSY_WAIT = 1000UL`. -/
def BUSY_WAIT : Nat := 1000

/-- `const unsigned long DEBOUNCE_TIME = 10UL`. -/
def DEBOUNCE_TIME : Nat := 10

/-- `const unsigned long MAX_MS_TO_REPLAY_A_CLIP = 300000UL`. -/
def MAX_MS_TO_REPLAY_A_CLIP : Nat := 300000

/-- `const uint8_t FIRST_CLIP_NUM = 11`. -/
def FIRST_CLIP_NUM : Int := 11

/-- `const uint8_t LAST_CLIP_NUM = 15`. -/
def LAST_CLIP_NUM : Int := 15

/-- `#define DEFAULT_VOLUME_LEVEL 70`. -/
def DEFAULT_VOLUME_LEVEL : Int := 70

/-- `enum StateVariable` of the firmware (state of the playback loop). -/
inductive StateVariable where
  | idle
  | triggered
  | clipWaiting
  | clipPlaying
  | clipComplete
  | clipEnd
  | paused
deriving DecidableEq

/-- Global mutable state of the firmware, together with the static locals of
`loop()` (`busyTime`, `state`) and the EEPROM cell written by `setVolume`. -/
structure Sys where
  relativeVolumeControl : Int
  currentClip : Int
  newClip2Play : Bool
  greenLEDFlash : Bool
  eventDataString : List Char
  eeprom0 : Int
  clipLastPlayedMS : Nat
  busyTime : Nat
  state : StateVariable
deriving DecidableEq

/-- Cloud function `setVolume` (lines 171-185): parse, clamp to `[0,100]`,
store in `relativeVolumeControl`, write it to EEPROM address 0, return 0. -/
def setVolume (volumeControl : List Char) (s : Sys) : Sys × Int :=
  let volume := toInt volumeControl
  let s1 :=
    if volume < 0 then { s with relativeVolumeControl := 0 }
    else if volume > 100 then { s with relativeVolumeControl := 100 }
    else { s with relativeVolumeControl := volume }
  let s2 := { s1 with eeprom0 := s1.relativeVolumeControl }
  (s2, 0)

/-- Cloud function `playClip` (lines 188-203): parse, bound to
`[0, 256]` sending low values to `FIRST_CLIP_NUM` and high values to
`LAST_CLIP_NUM`, set as current clip, raise `newClip2Play`, return 0. -/
def playClip (clipNumber : List Char) (s : Sys) : Sys × Int :=
  let clipNum := toInt clipNumber
  let s1 :=
    if clipNum < 0 then { s with currentClip := FIRST_CLIP_NUM }
    else if clipNum > 256 then { s with currentClip := LAST_CLIP_NUM }
    else { s with currentClip := clipNum }
  ({ s1 with newClip2Play := true }, 0)

/-- Cloud function `triggerDeviceNumber` (lines 206-219): parse, preset the
current clip to `ERROR_CLIP_NUM`, subtract the base device number, overwrite
the current clip from `clipList` when the index is in bounds, raise
`newClip2Play`, and return the offset-adjusted index. -/
def triggerDeviceNumber (cfg : ClipsConfig) (deviceNumber : List Char)
    (s : Sys) : Sys × Int :=
  let devNum := toInt deviceNumber
  let s1 := { s with currentClip := cfg.ERROR_CLIP_NUM }
  let devNum1 := devNum - cfg.BEGIN_DEV_NUM
  let s2 :=
    if 0 ≤ devNum1 ∧ devNum1 < cfg.MAX_NUM_CLIPS then
      { s1 with currentClip := cfg.clipList.getD devNum1.toNat 0 }
    else s1
  ({ s2 with newClip2Play := true }, devNum1)

/-- The key token searched for by `eventDatParse`. -/
def deviceNumKey : List Char := "deviceNum=".toList

/-- The two-character window that `eventDatParse` actually examines: the
remainder of the payload after dropping `indexOf(evData, "deviceNum=") + 10`
characters (computed in `unsigned int` arithmetic, so an absent token, giving
`indexOf = -1`, wraps to offset 9), truncated to two characters. -/
def parseWindow (evData : List Char) : List Char :=
  (evData.drop (toUInt32 (indexOf evData deviceNumKey + 10))).take 2

/-- `eventDatParse` (lines 327-361): `unsigned int _indexNum =
evData.indexOf("deviceNum=")`, `_indexNum += 10`, `evData.remove(0,
_indexNum)`, `evData.remove(2)`, and `unsigned int _devNum = evData.toInt()`.
`String::remove(0, n)` drops up to `n` leading characters; `remove(2)` keeps
at most the first two. -/
def eventDatParse (evData : List Char) : Nat :=
  toUInt32 (toInt (parseWindow evData))

/-- Event handler `particleCallbackEventPublish` (lines 366-386): store the
payload in `eventDataString`, parse the device number, subtract the base
device number in `unsigned int` arithmetic, and read `clipList[_devNumber]`
with NO bounds check.  An in-bounds read yields the updated state (`some`);
an index at or past the end of the table is an out-of-bounds array read,
undefined behaviour in the C++ source, modelled as `none`. -/
def particleCallbackEventPublish (cfg : ClipsConfig) (data : List Char)
    (s : Sys) : Option Sys :=
  let devNumber := eventDatParse data
  let devNumber1 := toUInt32 ((devNumber : Int) - cfg.BEGIN_DEV_NUM)
  match cfg.clipList.get? devNumber1 with
  | some clip =>
      some { s with eventDataString := data, currentClip := clip,
                    newClip2Play := true }
  | none => none

/-- `enum ButtonStates` of the firmware (state of `buttonPressed()`). -/
inductive ButtonStates where
  | buttonOff
  | pressedTentative
  | buttonOn
  | releasedTentative
deriving DecidableEq

/-- Static locals of `buttonPressed()`: `_buttonState` and `lastTime`. -/
structure BtnState where
  buttonState : ButtonStates
  lastTime : Nat
deriving DecidableEq

/-- One call of `buttonPressed()` (lines 246-317).  `pinHigh` is the value of
`digitalRead(BUTTON_PIN)`; the input is pulled up, so `pinHigh = true` means
the button is NOT pressed.  Returns the updated static locals and the boolean
result of the call. -/
def buttonPressed (now : Nat) (pinHigh : Bool) (b : BtnState) :
    BtnState × Bool :=
  match b.buttonState with
  | .buttonOff =>
      if pinHigh then ({ b with buttonState := .buttonOff }, false)
      else ({ buttonState := .pressedTentative, lastTime := now }, false)
  | .pressedTentative =>
      if pinHigh then ({ b with buttonState := .buttonOff }, false)
      else if now - b.lastTime < DEBOUNCE_TIME then
        ({ b with buttonState := .pressedTentative }, false)
      else ({ b with buttonState := .buttonOn }, true)
  | .buttonOn =>
      if !pinHigh then ({ b with buttonState := .buttonOn }, false)
      else ({ buttonState := .releasedTentative, lastTime := now }, false)
  | .releasedTentative =>
      if pinHigh then
        if now - b.lastTime < DEBOUNCE_TIME then
          ({ b with buttonState := .releasedTentative }, false)
        else ({ b with buttonState := .buttonOff }, false)
      else ({ b with buttonState := .buttonOn }, false)

/-- A sequence of `buttonPressed()` calls, each given by the `millis()` value
and the pin reading at that call; yields the list of returned booleans. -/
def buttonRun (b : BtnState) : List (Nat × Bool) → List Bool
  | [] => []
  | (now, pin) :: rest =>
      let r := buttonPressed now pin b
      r.2 :: buttonRun r.1 rest

/-- Poll inputs for a phase in which the button is continuously pressed
(pin reads LOW) at the given `millis()` values. -/
def pressedPolls (ts : List Nat) : List (Nat × Bool) :=
  ts.map (fun t => (t, false))

/-- Body of the `if (buttonPressed() == true)` block of `loop()` (lines
453-460): on a confirmed press, override the current clip with the "no
previous announcement" clip when the last play is too old, then raise
`newClip2Play`. -/
def buttonReplayHandle (cfg : ClipsConfig) (now : Nat) (s : Sys) : Sys :=
  let s1 :=
    if now - s.clipLastPlayedMS > MAX_MS_TO_REPLAY_A_CLIP then
      { s with currentClip := cfg.NO_PREVIOUS_ANNOUNCEMENT }
    else s
  { s1 with newClip2Play := true }

/-- The `switch(state)` playback state machine of `loop()` (lines 463-532).
The second component is the play command issued to the MP3 player
(`some clip` exactly when `miniMP3Player.playMp3Folder` is called; the
accompanying `miniMP3Player.volume` call happens on the same branch). -/
def playbackStep (now : Nat) (busyHigh : Bool) (s0 : Sys) :
    Sys × Option Int :=
  match s0.state with
  | .idle =>
      if busyHigh then
        if s0.newClip2Play then
          ({ s0 with greenLEDFlash := true, busyTime := now,
                     state := .triggered }, none)
        else (s0, none)
      else (s0, none)
  | .triggered =>
      if now - s0.busyTime < BUSY_WAIT then (s0, none)
      else ({ s0 with clipLastPlayedMS := now, state := .clipWaiting },
            some s0.currentClip)
  | .clipWaiting =>
      if busyHigh then (s0, none)
      else ({ s0 with state := .clipPlaying }, none)
  | .clipPlaying =>
      if !busyHigh then (s0, none)
      else ({ s0 with busyTime := now, state := .clipComplete }, none)
  | .clipComplete =>
      if now - s0.busyTime < BUSY_WAIT then (s0, none)
      else ({ s0 with greenLEDFlash := false, state := .clipEnd }, none)
  | .clipEnd => ({ s0 with newClip2Play := false, state := .idle }, none)
  | .paused => ({ s0 with newClip2Play := false, state := .idle }, none)

/-- One iteration of `loop()` (lines 445-534) as far as state is concerned:
the replay-button handling followed by the playback state machine.
`busyHigh` is `digitalRead(BUSY_PIN) == HIGH` (the MP3 player is free),
`buttonResult` is the value returned by `buttonPressed()` this iteration. -/
def loopStep (cfg : ClipsConfig) (now : Nat) (busyHigh : Bool)
    (buttonResult : Bool) (s : Sys) : Sys × Option Int :=
  playbackStep now busyHigh
    (if buttonResult then buttonReplayHandle cfg now s else s)

/-- The system state right after `setup()` (lines 391-441): volume restored
from EEPROM and clamped to the default when uninitialized, current clip set
to the "no previous announcement" clip, flags cleared, state machine in
`idle`, and the `millis()`-seeded timestamps set to the boot time `now0`. -/
def initSys (cfg : ClipsConfig) (eepromVol : Int) (now0 : Nat) : Sys :=
  { relativeVolumeControl :=
      if eepromVol < 0 ∨ eepromVol > 100 then DEFAULT_VOLUME_LEVEL
      else eepromVol
    currentClip := cfg.NO_PREVIOUS_ANNOUNCEMENT
    newClip2Play := false
    greenLEDFlash := false
    eventDataString := []
    eeprom0 := eepromVol
    clipLastPlayedMS := now0
    busyTime := now0
    state := .idle }

/-- States of the firmware reachable from boot by iterating `loop()` with
arbitrary inputs, interleaved with the externally-triggered cloud functions
and the event callback (which run to completion between loop iterations). -/
inductive Reach (cfg : ClipsConfig) : Sys → Prop where
  | init : ∀ eepromVol now0, Reach cfg (initSys cfg eepromVol now0)
  | loop : ∀ s now busyHigh btn, Reach cfg s →
      Reach cfg (loopStep cfg now busyHigh btn s).1
  | vol : ∀ s arg, Reach cfg s → Reach cfg (setVolume arg s).1
  | play : ∀ s arg, Reach cfg s → Reach cfg (playClip arg s).1
  | trig : ∀ s arg, Reach cfg s →
      Reach cfg (triggerDeviceNumber cfg arg s).1
  | callback : ∀ s data s2, Reach cfg s →
      particleCallbackEventPublish cfg data s = some s2 → Reach cfg s2

/-- The playback state machine is in an active stage (between the
idle-to-triggered transition and the clipComplete-to-clipEnd transition). -/
def activeStage (s : Sys) : Prop :=
  s.state = .triggered ∨ s.state = .clipWaiting ∨
  s.state = .clipPlaying ∨ s.state = .clipComplete

/-- Sample instantiation of the modelled clip table, used to evaluate the
definitions on concrete inputs: base device number 5 with eight clips
(device identifiers 5 through 12, as in the documented message format). -/
def sampleCfg : ClipsConfig :=
  { clipList := [100, 101, 102, 103, 104, 105, 106, 107]
    BEGIN_DEV_NUM := 5
    ERROR_CLIP_NUM := 99
    NO_PREVIOUS_ANNOUNCEMENT := 98 }

/-- A concrete post-`setup()` system state for concrete evaluations. -/
def sys0 : Sys := initSys sampleCfg 70 0

/-- Number of `true` results in a list of poll results. -/
def countTrue : List Bool → Nat
  | [] => 0
  | b :: rest => (if b then 1 else 0) + countTrue rest

/-- A `false` poll result does not change the count. -/
theorem countTrue_cons_false (l : List Bool) :
    countTrue (false :: l) = countTrue l := by
  simp [countTrue]

/-- A `true` poll result adds one to the count. -/
theorem countTrue_cons_true (l : List Bool) :
    countTrue (true :: l) = 1 + countTrue l := by
  simp [countTrue]

/-- While the machine is in `buttonOn` and the button stays pressed, every
poll returns `false` and the machine stays in `buttonOn`. -/
theorem buttonOn_held_no_true (lt : Nat) (ts : List Nat) :
    countTrue (buttonRun ⟨.buttonOn, lt⟩ (pressedPolls ts)) = 0 := by
  induction ts generalizing lt with
  | nil => rfl
  | cons t rest ih =>
      have h1 : buttonRun ⟨.buttonOn, lt⟩ (pressedPolls (t :: rest)) =
          false :: buttonRun ⟨.buttonOn, lt⟩ (pressedPolls rest) := rfl
      rw [h1, countTrue_cons_false, ih]

/-- From `pressedTentative` entered at time `t0`, with the button held
pressed, the polls return `true` exactly once when some poll happens at
least `DEBOUNCE_TIME` after `t0`, and never otherwise. -/
theorem pressedTentative_held_count (t0 : Nat) (ts : List Nat) :
    countTrue (buttonRun ⟨.pressedTentative, t0⟩ (pressedPolls ts)) =
      if ∃ u ∈ ts, t0 + DEBOUNCE_TIME ≤ u then 1 else 0 := by
  induction ts with
  | nil => simp [pressedPolls, buttonRun, countTrue]
  | cons t rest ih =>
      by_cases hdeb : t - t0 < DEBOUNCE_TIME
      · have h1 : buttonRun ⟨.pressedTentative, t0⟩
            (pressedPolls (t :: rest)) =
            false :: buttonRun ⟨.pressedTentative, t0⟩ (pressedPolls rest) := by
          show buttonRun _ ((t, false) :: pressedPolls rest) = _
          simp [buttonRun, buttonPressed, hdeb]
        have hnot : ¬ t0 + DEBOUNCE_TIME ≤ t := by omega
        have hcond : (∃ u ∈ t :: rest, t0 + DEBOUNCE_TIME ≤ u) ↔
            (∃ u ∈ rest, t0 + DEBOUNCE_TIME ≤ u) := by
          simp only [List.mem_cons]
          constructor
          · rintro ⟨u, hu | hu, hle⟩
            · exact absurd (hu ▸ hle) hnot
            · exact ⟨u, hu, hle⟩
          · rintro ⟨u, hu, hle⟩
            exact ⟨u, Or.inr hu, hle⟩
        rw [h1, countTrue_cons_false, ih]
        exact (if_congr hcond rfl rfl).symm
      · have h1 : buttonRun ⟨.pressedTentative, t0⟩
            (pressedPolls (t :: rest)) =
            true :: buttonRun ⟨.buttonOn, t0⟩ (pressedPolls rest) := by
          show buttonRun _ ((t, false) :: pressedPolls rest) = _
          simp [buttonRun, buttonPressed, hdeb]
        have hyes : ∃ u ∈ t :: rest, t0 + DEBOUNCE_TIME ≤ u :=
          ⟨t, List.mem_cons_self t rest, by
            simp only [DEBOUNCE_TIME] at hdeb ⊢
            omega⟩
        rw [h1, countTrue_cons_true, buttonOn_held_no_true, if_pos hyes]

/-- C7: starting released (`buttonOff`), a press held across the polls at
times `t0 :: ts` (pin reading LOW throughout), with some poll at least
`DEBOUNCE_TIME` (10 ms) after the first, makes `buttonPressed()` return
`true` exactly once, however long the button is held. -/
theorem buttonPressed_once_per_press (lt t0 : Nat) (ts : List Nat)
    (h : ∃ u ∈ ts, t0 + DEBOUNCE_TIME ≤ u) :
    countTrue (buttonRun ⟨.buttonOff, lt⟩ (pressedPolls (t0 :: ts))) = 1 := by
  have h1 : buttonRun ⟨.buttonOff, lt⟩ (pressedPolls (t0 :: ts)) =
      false :: buttonRun ⟨.pressedTentative, t0⟩ (pressedPolls ts) := rfl
  rw [h1, countTrue_cons_false, pressedTentative_held_count, if_pos h]

/-- C7 witness: polls at times 0, 3, 12, 50 with the button held. -/
theorem buttonPressed_once_per_press_witness :
    (∃ u ∈ [3, 12, 50], 0 + DEBOUNCE_TIME ≤ u) ∧
    countTrue (buttonRun ⟨.buttonOff, 0⟩ (pressedPolls [0, 3, 12, 50])) = 1 :=
  ⟨by decide, buttonPressed_once_per_press 0 0 [3, 12, 50] (by decide)⟩

/-- C8: in the two hold states of the playback controller (`triggered` and
`clipComplete`, hold duration `BUSY_WAIT` = 1000 ms each), a poll with no
input change (no confirmed button press) before the hold duration elapses
leaves the entire state unchanged and issues no play command. -/
theorem loopStep_hold_idempotent (cfg : ClipsConfig) (s : Sys) (now : Nat)
    (busyHigh : Bool)
    (hstate : s.state = .triggered ∨ s.state = .clipComplete)
    (htime : now - s.busyTime < BUSY_WAIT) :
    loopStep cfg now busyHigh false s = (s, none) := by
  unfold loopStep playbackStep
  rcases hstate with h | h <;>
    simp only [if_false, Bool.false_eq_true, h, htime, if_pos, if_true]

/-- C8 witness: a concrete `triggered` state polled 5 ms into the hold. -/
theorem loopStep_hold_idempotent_witness :
    (({ sys0 with state := .triggered } : Sys).state = .triggered ∨
      ({ sys0 with state := .triggered } : Sys).state = .clipComplete) ∧
    ((5 : Nat) - ({ sys0 with state := .triggered } : Sys).busyTime <
      BUSY_WAIT) ∧
    loopStep sampleCfg 5 true false { sys0 with state := .triggered } =
      ({ sys0 with state := .triggered }, none) :=
  ⟨Or.inl rfl, by decide,
    loopStep_hold_idempotent sampleCfg { sys0 with state := .triggered }
      5 true (Or.inl rfl) (by decide)⟩

/-- The replay-button handler touches only `currentClip` and
`newClip2Play`. -/
theorem buttonReplayHandle_led_state (cfg : ClipsConfig) (now : Nat)
    (s : Sys) :
    (buttonReplayHandle cfg now s).greenLEDFlash = s.greenLEDFlash ∧
    (buttonReplayHandle cfg now s).state = s.state := by
  unfold buttonReplayHandle
  dsimp only
  split <;> exact ⟨rfl, rfl⟩

/-- Transport of the LED invariant along equal flag and state fields. -/
theorem ledInv_congr (a b : Sys) (hg : a.greenLEDFlash = b.greenLEDFlash)
    (hs : a.state = b.state)
    (ih : b.greenLEDFlash = true ↔ activeStage b) :
    a.greenLEDFlash = true ↔ activeStage a := by
  unfold activeStage at *
  rw [hg, hs]
  exact ih

/-- `setVolume` touches neither the LED-flash flag nor the playback
state. -/
theorem setVolume_led_state (arg : List Char) (s : Sys) :
    (setVolume arg s).1.greenLEDFlash = s.greenLEDFlash ∧
    (setVolume arg s).1.state = s.state := by
  unfold setVolume
  dsimp only
  split_ifs <;> exact ⟨rfl, rfl⟩

/-- `playClip` touches neither the LED-flash flag nor the playback state. -/
theorem playClip_led_state (arg : List Char) (s : Sys) :
    (playClip arg s).1.greenLEDFlash = s.greenLEDFlash ∧
    (playClip arg s).1.state = s.state := by
  unfold playClip
  dsimp only
  split_ifs <;> exact ⟨rfl, rfl⟩

/-- `triggerDeviceNumber` touches neither the LED-flash flag nor the
playback state. -/
theorem triggerDeviceNumber_led_state (cfg : ClipsConfig) (arg : List Char)
    (s : Sys) :
    (triggerDeviceNumber cfg arg s).1.greenLEDFlash = s.greenLEDFlash ∧
    (triggerDeviceNumber cfg arg s).1.state = s.state := by
  unfold triggerDeviceNumber
  dsimp only
  split_ifs <;> exact ⟨rfl, rfl⟩

/-- The event callback touches neither the LED-flash flag nor the playback
state. -/
theorem callback_led_state (cfg : ClipsConfig) (data : List Char)
    (s s2 : Sys)
    (h : particleCallbackEventPublish cfg data s = some s2) :
    s2.greenLEDFlash = s.greenLEDFlash ∧ s2.state = s.state := by
  unfold particleCallbackEventPublish at h
  dsimp only at h
  split at h
  · injection h with h2
    exact h2 ▸ ⟨rfl, rfl⟩
  · cases h

/-- One playback-machine step preserves the LED invariant: the flash flag
is raised exactly on the idle-to-triggered transition and lowered exactly
on the clipComplete-to-clipEnd transition. -/
theorem activeStage_playbackStep (now : Nat) (busy : Bool) (s0 : Sys)
    (ih : s0.greenLEDFlash = true ↔ activeStage s0) :
    (playbackStep now busy s0).1.greenLEDFlash = true ↔
      activeStage (playbackStep now busy s0).1 := by
  unfold playbackStep
  cases hst : s0.state with
  | idle =>
      dsimp only
      split_ifs with h1 h2
      · simp [activeStage]
      · exact ih
      · exact ih
  | triggered =>
      dsimp only
      split_ifs with h1
      · exact ih
      · simp only [activeStage]
        simp only [reduceCtorEq, false_or, or_false, iff_true]
        exact ih.mpr (Or.inl hst)
  | clipWaiting =>
      dsimp only
      split_ifs with h1
      · exact ih
      · simp only [activeStage]
        simp only [reduceCtorEq, false_or, or_false, iff_true]
        exact ih.mpr (Or.inr (Or.inl hst))
  | clipPlaying =>
      dsimp only
      split_ifs with h1
      · exact ih
      · simp only [activeStage]
        simp only [reduceCtorEq, false_or, or_false, iff_true]
        exact ih.mpr (Or.inr (Or.inr (Or.inl hst)))
  | clipComplete =>
      dsimp only
      split_ifs with h1
      · exact ih
      · simp [activeStage]
  | clipEnd =>
      dsimp only
      simp only [activeStage]
      simp only [reduceCtorEq, false_or, or_false, iff_false]
      intro hg
      have := ih.mp hg
      unfold activeStage at this
      simp [hst] at this
  | paused =>
      dsimp only
      simp only [activeStage]
      simp only [reduceCtorEq, false_or, or_false, iff_false]
      intro hg
      have := ih.mp hg
      unfold activeStage at this
      simp [hst] at this

/-- C9: in every state reachable by iterating the main loop from the
initial state (with the cloud functions and the event callback interleaved),
the green-LED flash-enable flag is true exactly when the playback state
machine is in `triggered`, `clipWaiting`, `clipPlaying` or `clipComplete`,
and false in `idle` and `clipEnd`. -/
theorem greenLEDFlash_iff_active (cfg : ClipsConfig) (s : Sys)
    (h : Reach cfg s) :
    s.greenLEDFlash = true ↔ activeStage s := by
  induction h with
  | init eepromVol now0 => simp [initSys, activeStage]
  | loop s now busyHigh btn hr ih =>
      show (playbackStep now busyHigh _).1.greenLEDFlash = true ↔
        activeStage (playbackStep now busyHigh _).1
      apply activeStage_playbackStep
      cases btn
      · exact ih
      · have hb := buttonReplayHandle_led_state cfg now s
        exact ledInv_congr _ _ hb.1 hb.2 ih
  | vol s arg hr ih =>
      have hp := setVolume_led_state arg s
      exact ledInv_congr _ _ hp.1 hp.2 ih
  | play s arg hr ih =>
      have hp := playClip_led_state arg s
      exact ledInv_congr _ _ hp.1 hp.2 ih
  | trig s arg hr ih =>
      have hp := triggerDeviceNumber_led_state cfg arg s
      exact ledInv_congr _ _ hp.1 hp.2 ih
  | callback s data s2 hr hsome ih =>
      have hp := callback_led_state cfg data s s2 hsome
      exact ledInv_congr _ _ hp.1 hp.2 ih

/-- C9 witness: the invariant instantiated at the boot state of the sample
configuration, which is reachable by construction. -/
theorem greenLEDFlash_iff_active_witness :
    (initSys sampleCfg 70 0).greenLEDFlash = true ↔
      activeStage (initSys sampleCfg 70 0) :=
  greenLEDFlash_iff_active sampleCfg (initSys sampleCfg 70 0)
    (Reach.init 70 0)

/-- C3: for every device-identifier input, `triggerDeviceNumber` sets the
current clip to `clipList[d - BEGIN_DEV_NUM]` when that index is within the
table bounds and to `ERROR_CLIP_NUM` otherwise, and raises `newClip2Play` in
both cases. -/
theorem triggerDeviceNumber_selects (cfg : ClipsConfig) (s : Sys)
    (input : List Char) :
    (triggerDeviceNumber cfg input s).1.currentClip =
      (if 0 ≤ toInt input - cfg.BEGIN_DEV_NUM ∧
          toInt input - cfg.BEGIN_DEV_NUM < cfg.MAX_NUM_CLIPS then
        cfg.clipList.getD (toInt input - cfg.BEGIN_DEV_NUM).toNat 0
      else cfg.ERROR_CLIP_NUM)
    ∧ (triggerDeviceNumber cfg input s).1.newClip2Play = true := by
  unfold triggerDeviceNumber
  refine ⟨?_, rfl⟩
  dsimp only
  split <;> rfl

/-- C4: for every input to `playClip`, the parsed integer is bounded: values
below 0 become `FIRST_CLIP_NUM`, values above 256 become `LAST_CLIP_NUM`,
every other value becomes the current clip unchanged; `newClip2Play` is
raised. -/
theorem playClip_clamps (s : Sys) (input : List Char) :
    (playClip input s).1.currentClip =
      (if toInt input < 0 then FIRST_CLIP_NUM
       else if toInt input > 256 then LAST_CLIP_NUM
       else toInt input)
    ∧ (playClip input s).1.newClip2Play = true := by
  unfold playClip
  refine ⟨?_, rfl⟩
  dsimp only
  split
  · rfl
  · split <;> rfl

/-- C5: for every input to `setVolume`, the stored volume is 0 when the
parsed input is below 0, 100 when above 100, and the parsed input itself
otherwise; the stored value is written to EEPROM in the same call. -/
theorem setVolume_clamps (s : Sys) (input : List Char) :
    (setVolume input s).1.relativeVolumeControl =
      (if toInt input < 0 then 0
       else if toInt input > 100 then 100
       else toInt input)
    ∧ (setVolume input s).1.eeprom0 =
        (setVolume input s).1.relativeVolumeControl := by
  unfold setVolume
  refine ⟨?_, ?_⟩
  · dsimp only
    split
    · rfl
    · split <;> rfl
  · rfl

/-- Entry of the clip table selected for an in-bounds index is a table
entry. -/
theorem getD_mem_of_lt (l : List Int) (n : Nat) (h : n < l.length) :
    l.getD n 0 ∈ l := by
  rw [List.getD_eq_getElem l 0 h]
  exact List.getElem_mem h

/-- C10: `triggerDeviceNumber` returns the offset-adjusted index (parsed
identifier minus `BEGIN_DEV_NUM`); provided the designated error clip is not
itself a table entry, that return value is negative or at least
`MAX_NUM_CLIPS` exactly when the error clip was selected.  The `setVolume`
and `playClip` cloud functions always return 0. -/
theorem triggerDeviceNumber_returns_offset_index (cfg : ClipsConfig)
    (s : Sys) (devInput volInput clipInput : List Char)
    (hne : cfg.ERROR_CLIP_NUM ∉ cfg.clipList) :
    (triggerDeviceNumber cfg devInput s).2 =
      toInt devInput - cfg.BEGIN_DEV_NUM
    ∧ (((triggerDeviceNumber cfg devInput s).2 < 0 ∨
        cfg.MAX_NUM_CLIPS ≤ (triggerDeviceNumber cfg devInput s).2) ↔
        (triggerDeviceNumber cfg devInput s).1.currentClip =
          cfg.ERROR_CLIP_NUM)
    ∧ (setVolume volInput s).2 = 0
    ∧ (playClip clipInput s).2 = 0 := by
  refine ⟨rfl, ?_, rfl, rfl⟩
  unfold triggerDeviceNumber
  dsimp only
  split
  · rename_i hin
    have hlt : (toInt devInput - cfg.BEGIN_DEV_NUM).toNat <
        cfg.clipList.length := by
      rcases hin with ⟨h0, hM⟩
      unfold ClipsConfig.MAX_NUM_CLIPS at hM
      omega
    have hmem := getD_mem_of_lt cfg.clipList
      (toInt devInput - cfg.BEGIN_DEV_NUM).toNat hlt
    constructor
    · intro hcontra
      exact absurd hin (by omega)
    · intro heq
      exact absurd (heq ▸ hmem) hne
  · rename_i hout
    simp only [true_iff, iff_true]
    omega

/-- C10 witness: the characterization evaluated at device input "11",
volume input "50" and clip input "12" over the sample configuration. -/
theorem triggerDeviceNumber_returns_offset_index_witness :
    sampleCfg.ERROR_CLIP_NUM ∉ sampleCfg.clipList ∧
    ((triggerDeviceNumber sampleCfg ("11".toList) sys0).2 =
        toInt ("11".toList) - sampleCfg.BEGIN_DEV_NUM
      ∧ (((triggerDeviceNumber sampleCfg ("11".toList) sys0).2 < 0 ∨
          sampleCfg.MAX_NUM_CLIPS ≤
            (triggerDeviceNumber sampleCfg ("11".toList) sys0).2) ↔
          (triggerDeviceNumber sampleCfg ("11".toList) sys0).1.currentClip =
            sampleCfg.ERROR_CLIP_NUM)
      ∧ (setVolume ("50".toList) sys0).2 = 0
      ∧ (playClip ("12".toList) sys0).2 = 0) :=
  ⟨by decide, triggerDeviceNumber_returns_offset_index sampleCfg sys0
    ("11".toList) ("50".toList) ("12".toList) (by decide)⟩

/-- C1: evaluation of the remote-event callback at a payload whose device
identifier is out of range.  The payload parses to device number 99; after
base subtraction the index 94 is past the end of the eight-entry table, and
the callback reads `clipList[94]` with no bounds check (an out-of-bounds
array read, modelled as `none`) instead of selecting `ERROR_CLIP_NUM` as
`triggerDeviceNumber` does for the same identifier. -/
theorem callback_out_of_range_unchecked :
    eventDatParse ("message=TESTOK|deviceNum=99|payload=G".toList) = 99 ∧
    toUInt32 ((99 : Int) - sampleCfg.BEGIN_DEV_NUM) = 94 ∧
    sampleCfg.clipList.length = 8 ∧
    particleCallbackEventPublish sampleCfg
      ("message=TESTOK|deviceNum=99|payload=G".toList) sys0 = none ∧
    (triggerDeviceNumber sampleCfg ("99".toList) sys0).1.currentClip =
      sampleCfg.ERROR_CLIP_NUM := by
  refine ⟨rfl, rfl, rfl, rfl, rfl⟩

/-- C2 counterexample: a payload in which the key token `deviceNum=` is
absent but whose parse is NOT 0.  `indexOf` returns -1, the `unsigned int`
arithmetic wraps the scan position to 9, and the characters at positions
9-10 ("91") parse to 91. -/
theorem eventDatParse_absent_token_nonzero :
    indexOf ("0123456789123".toList) deviceNumKey = -1 ∧
    eventDatParse ("0123456789123".toList) = 91 ∧
    eventDatParse ("0123456789123".toList) ≠ 0 := by
  refine ⟨rfl, rfl, by decide⟩

/-- A string none of whose characters is a digit, a sign, or whitespace
parses to 0 under `atol` semantics. -/
theorem toInt_eq_zero (s : List Char)
    (h : ∀ c ∈ s, c.isDigit = false ∧ c ≠ '+' ∧ c ≠ '-' ∧
      isSpaceC c = false) :
    toInt s = 0 := by
  cases s with
  | nil => rfl
  | cons c rest =>
    obtain ⟨hd, hp, hm, hs⟩ := h c (List.mem_cons_self c rest)
    unfold toInt
    rw [List.dropWhile_cons, hs]
    simp only [Bool.false_eq_true, if_false]
    split
    · rename_i rest2 heq
      injection heq with h1 h2
      exact absurd h1 hm
    · rename_i rest2 heq
      injection heq with h1 h2
      exact absurd h1 hp
    · rw [List.takeWhile_cons, hd]
      rfl

/-- C2 (amended): the parse yields 0 whenever the two characters it
actually examines -- those following the first `deviceNum=` when the token
is present, or those at positions 9-10 of the payload when it is absent
(the not-found index -1 wraps in `unsigned int` arithmetic) -- are
non-numeric (no digit, sign, or whitespace); in particular there is no
exception or crash. -/
theorem eventDatParse_nonNumeric_window_zero (data : List Char)
    (h : ∀ c ∈ parseWindow data, c.isDigit = false ∧ c ≠ '+' ∧ c ≠ '-' ∧
      isSpaceC c = false) :
    eventDatParse data = 0 := by
  unfold eventDatParse
  rw [toInt_eq_zero _ h]
  rfl

/-- C2 witness: a payload with the token present followed by the
non-numeric characters "xy" parses to 0. -/
theorem eventDatParse_nonNumeric_window_zero_witness :
    (∀ c ∈ parseWindow ("message=TESTOK|deviceNum=xy|payload=G".toList),
      c.isDigit = false ∧ c ≠ '+' ∧ c ≠ '-' ∧ isSpaceC c = false) ∧
    eventDatParse ("message=TESTOK|deviceNum=xy|payload=G".toList) = 0 :=
  ⟨by decide, eventDatParse_nonNumeric_window_zero
    ("message=TESTOK|deviceNum=xy|payload=G".toList) (by decide)⟩

/-- C6: a confirmed button press is handled by `buttonReplayHandle` inside
`loop()`; it overrides the current clip with `NO_PREVIOUS_ANNOUNCEMENT`
exactly when more than `MAX_MS_TO_REPLAY_A_CLIP` (300000 ms) elapsed since
the last playback start, leaves it unchanged otherwise, and raises
`newClip2Play` in both cases. -/
theorem loop_button_replay (cfg : ClipsConfig) (now : Nat) (s : Sys) :
    (∀ busyHigh : Bool,
      loopStep cfg now busyHigh true s =
        loopStep cfg now busyHigh false (buttonReplayHandle cfg now s))
    ∧ (buttonReplayHandle cfg now s).currentClip =
        (if now - s.clipLastPlayedMS > MAX_MS_TO_REPLAY_A_CLIP then
          cfg.NO_PREVIOUS_ANNOUNCEMENT
        else s.currentClip)
    ∧ (buttonReplayHandle cfg now s).newClip2Play = true := by
  refine ⟨fun busyHigh => rfl, ?_, rfl⟩
  unfold buttonReplayHandle
  dsimp only
  split <;> rfl
